import Mathlib

/-!
# Verification of the time-aware pi camera scheduler

Shallow embedding of `src/index.ts` and `src/types.ts` of the
time-aware-pi-camera repository.  Instants (JavaScript `Date` values /
epoch milliseconds) are modelled as `Int`; calendar days are modelled as
`Int` day indices, with `today + 1` standing for the `tomorrow` date the
code constructs via `setDate(getDate() + 1)`.  The external astronomical
library `sunrise-sunset-js` is modelled as an abstract `Oracle`
providing `getSunrise` / `getSunset` as functions of latitude,
longitude and day.  Hardware calls (`raspi-i2c`, `raspi-gpio`) are
modelled only through the observable `update` mode applications, and
timer arming (`setTimeout` in `nextLoop`) through an `armed` event.
-/

namespace PiCamera

/-- `Config` from `src/types.ts`: latitude and longitude.  The
TypeScript `number` type is modelled as `ℚ`; the coordinates are only
passed through to the astronomical oracle. -/
structure Config where
  latitude : ℚ
  longitude : ℚ
deriving DecidableEq, Repr

/-- `CameraMode` from `src/types.ts`: `Colour = 0`, `NoIR = 1`. -/
inductive CameraMode where
  | Colour
  | NoIR
deriving DecidableEq, Repr

/-- `Update` from `src/types.ts`: a firing instant paired with the
camera mode to assume at that instant (the spec calls this
`Transition`). -/
structure Update where
  fires : Int
  state : CameraMode
deriving DecidableEq, Repr

/-- The external astronomical library `sunrise-sunset-js`, abstracted:
`getSunrise lat lon day` / `getSunset lat lon day` give the instant of
the event for the given location on the given calendar day.  The code
calls each of them either with no date argument (the current day) or
with the `tomorrow` date. -/
structure Oracle where
  getSunrise : ℚ → ℚ → Int → Int
  getSunset : ℚ → ℚ → Int → Int

/-- `getSunrise(config.latitude, config.longitude)` with the date
argument omitted: today's sunrise (`index.ts` line 41). -/
def todaySunrise (o : Oracle) (c : Config) (today : Int) : Int :=
  o.getSunrise c.latitude c.longitude today

/-- `getSunset(config.latitude, config.longitude)` with the date
argument omitted: today's sunset (`index.ts` line 42). -/
def todaySunset (o : Oracle) (c : Config) (today : Int) : Int :=
  o.getSunset c.latitude c.longitude today

/-- The value of `nextSunrise` after the "handle wrapping onto next
day" step (`index.ts` lines 45–46): if today's sunrise is strictly
before `now`, the sunrise is re-queried for `tomorrow`. -/
def rolledSunrise (o : Oracle) (c : Config) (now today : Int) : Int :=
  if todaySunrise o c today < now then
    o.getSunrise c.latitude c.longitude (today + 1)
  else
    todaySunrise o c today

/-- The value of `nextSunset` after the "handle wrapping onto next
day" step (`index.ts` lines 47–48). -/
def rolledSunset (o : Oracle) (c : Config) (now today : Int) : Int :=
  if todaySunset o c today < now then
    o.getSunset c.latitude c.longitude (today + 1)
  else
    todaySunset o c today

/-- `let sunriseNext = nextSunrise < nextSunset` (`index.ts` line 50). -/
def sunriseNextInitial (o : Oracle) (c : Config) (now today : Int) : Bool :=
  decide (rolledSunrise o c now today < rolledSunset o c now today)

/-- The value of `sunriseNext` after the "handle if the sunrise/sunset
date is actually in the past" correction (`index.ts` lines 52–57). -/
def sunriseNextCorrected (o : Oracle) (c : Config) (now today : Int) : Bool :=
  if sunriseNextInitial o c now today = true ∧ rolledSunrise o c now today < now then
    false
  else if sunriseNextInitial o c now today = false ∧ rolledSunset o c now today < now then
    true
  else
    sunriseNextInitial o c now today

/-- `nextUpdate` (`index.ts` lines 35–66): the transition planner.  The
code reads the clock itself (`new Date()`); here the instant `now` and
its calendar day `today` are explicit parameters. -/
def nextUpdate (o : Oracle) (c : Config) (now today : Int) : Update :=
  if sunriseNextCorrected o c now today then
    { fires := rolledSunrise o c now today, state := CameraMode.Colour }
  else
    { fires := rolledSunset o c now today, state := CameraMode.NoIR }

/-- JSON values, as produced by `JSON.parse`.  Numbers are modelled as
`ℚ`. -/
inductive Json where
  | null
  | bool (b : Bool)
  | num (q : ℚ)
  | str (s : String)
  | arr (elems : List Json)
  | obj (fields : List (String × Json))

/-- The ways the `try` block of `loadConfig` can throw: `readFileSync`
failing because the file is missing or unreadable, or `JSON.parse`
throwing on malformed input. -/
inductive LoadError where
  | missingFile
  | unreadable
  | parseError
deriving DecidableEq, Repr

/-- The hardcoded default returned by the `catch` branch of
`loadConfig` (`index.ts` lines 25–28): latitude `51.5074`, longitude
`0.1278` (London). -/
def defaultConfigJson : Json :=
  Json.obj [("latitude", Json.num (515074 / 10000)),
            ("longitude", Json.num (1278 / 10000))]

/-- `loadConfig` (`index.ts` lines 20–30).  The external
`fs.readFileSync` + `JSON.parse` pipeline is abstracted as its outcome:
either a parsed JSON value or a thrown error.  The TypeScript code
returns `JSON.parse(config)` directly, cast to `Config` without any
validation, so the embedding returns the raw `Json` value. -/
def loadConfig (result : Except LoadError Json) : Json :=
  match result with
  | Except.ok parsed => parsed
  | Except.error _ => defaultConfigJson

/-- Observable actions of the process, in order: a call to `update`
(a camera mode application, `index.ts` lines 71–83) or the arming of
the `setTimeout` timer for an `Update` in `nextLoop` (`index.ts` lines
126–132).  The one-off I2C/GPIO initialisation writes inside `setup`
are hardware plumbing, not `update` calls, and are not events. -/
inductive Event where
  | applied (m : CameraMode)
  | armed (u : Update)
deriving DecidableEq, Repr

/-- `setup` (`index.ts` lines 92–118): computes `next = nextUpdate`,
applies the opposite camera mode immediately (`update(NoIR)` when
`next.state` is `Colour`, otherwise `update(Colour)`), and resolves
with `next`.  Returns the list of mode applications performed and the
resolved `Update`. -/
def setupEvents (o : Oracle) (c : Config) (now today : Int) :
    List Event × Update :=
  if (nextUpdate o c now today).state = CameraMode.Colour then
    ([Event.applied CameraMode.NoIR], nextUpdate o c now today)
  else
    ([Event.applied CameraMode.Colour], nextUpdate o c now today)

/-- `main` (`index.ts` lines 141–160): runs `setup`, then either the
`--test` one-shot path (reading the selector that follows `--test` in
`argv`, applying `Colour` for `"0"` or `NoIR` for `"1"`) or the
scheduler path, which arms the timer for the next transition via
`nextLoop`.  `nextLoop` recurses forever; the trace records its first
timer arming.  The `loadConfig` call is modelled by the `c` parameter. -/
def mainEvents (o : Oracle) (c : Config) (now today : Int)
    (argv : List String) : List Event :=
  if argv.contains "--test" then
    if argv[argv.indexOf "--test" + 1]? = some "0" then
      (setupEvents o c now today).1 ++ [Event.applied CameraMode.Colour]
    else if argv[argv.indexOf "--test" + 1]? = some "1" then
      (setupEvents o c now today).1 ++ [Event.applied CameraMode.NoIR]
    else
      (setupEvents o c now today).1
  else
    (setupEvents o c now today).1 ++ [Event.armed (setupEvents o c now today).2]

/-! ## Concrete oracles and locations used as test inputs -/

/-- A location with zero coordinates; the concrete oracles below ignore
the coordinates, so any location works for the concrete evaluations. -/
def cfg0 : Config := { latitude := 0, longitude := 0 }

/-- A well-behaved oracle: on day `d`, sunrise at `100 + 86400000·d`
and sunset at `200 + 86400000·d` (each day's events one day after the
previous day's). -/
def oracleA : Oracle :=
  { getSunrise := fun _ _ d => 100 + 86400000 * d
    getSunset := fun _ _ d => 200 + 86400000 * d }

/-- An oracle whose events sit far in the past of the instant `1000`:
on day `d`, sunrise at `10 + d` and sunset at `20 + d`.  At
`now = 1000` both today's and tomorrow's events are in the past,
exercising the correction pass of `nextUpdate`. -/
def oracleB : Oracle :=
  { getSunrise := fun _ _ d => 10 + d
    getSunset := fun _ _ d => 20 + d }

/-! ## Helper lemmas -/

/-- Under a sane oracle — whenever a same-day event is strictly before
`now`, the corresponding next-day event is not before `now` — the
planner's chosen firing instant is never before `now`. -/
theorem fires_ge_now (o : Oracle) (c : Config) (now today : Int)
    (hsr : todaySunrise o c today < now →
      now ≤ o.getSunrise c.latitude c.longitude (today + 1))
    (hss : todaySunset o c today < now →
      now ≤ o.getSunset c.latitude c.longitude (today + 1)) :
    now ≤ (nextUpdate o c now today).fires := by
  have ha : now ≤ rolledSunrise o c now today := by
    unfold rolledSunrise
    split
    · exact hsr (by assumption)
    · omega
  have hb : now ≤ rolledSunset o c now today := by
    unfold rolledSunset
    split
    · exact hss (by assumption)
    · omega
  unfold nextUpdate
  split
  · exact ha
  · exact hb

/-! ## C1 -/

/-- Claim C1 is false as stated: with a well-behaved oracle (`oracleA`,
sunrise `100`, sunset `200` on day `0`), when `now` coincides exactly
with today's sunrise instant, `nextUpdate` returns `fires = now`,
which is not strictly after `now`. -/
theorem c1_counterexample :
    todaySunrise oracleA cfg0 0 = 100 ∧
    nextUpdate oracleA cfg0 100 0 = { fires := 100, state := CameraMode.Colour } ∧
    ¬ (100 < (nextUpdate oracleA cfg0 100 0).fires) := by
  decide

/-- Claim C1, amended: for every location and instant `now`, provided
the oracle is sane (a next-day event is never before `now` when the
same-day event already passed), `nextUpdate` returns a `Transition`
whose `fires` is at or after `now` — never strictly before it; equality
is possible exactly when `now` coincides with the chosen event
instant. -/
theorem c1_fires_not_before_now (o : Oracle) (c : Config) (now today : Int)
    (hsr : todaySunrise o c today < now →
      now ≤ o.getSunrise c.latitude c.longitude (today + 1))
    (hss : todaySunset o c today < now →
      now ≤ o.getSunset c.latitude c.longitude (today + 1)) :
    now ≤ (nextUpdate o c now today).fires :=
  fires_ge_now o c now today hsr hss

/-- Witness for C1's amended theorem at `oracleA`, `now = 1000`. -/
theorem c1_witness : (1000 : Int) ≤ (nextUpdate oracleA cfg0 1000 0).fires :=
  c1_fires_not_before_now oracleA cfg0 1000 0 (by decide) (by decide)

/-! ## C7 -/

/-- Claim C7: forward progress of the scheduler loop.  When the loop
has fired at `tFires` and recomputes the next transition at an instant
`now` strictly after `tFires` (the code guarantees this by the 1000 ms
grace delay in `nextLoop`), the new deadline is strictly greater than
`tFires`, under the same oracle-sanity hypotheses as C1; in particular
the same instant is never recomputed. -/
theorem c7_forward_progress (o : Oracle) (c : Config) (now today tFires : Int)
    (hsr : todaySunrise o c today < now →
      now ≤ o.getSunrise c.latitude c.longitude (today + 1))
    (hss : todaySunset o c today < now →
      now ≤ o.getSunset c.latitude c.longitude (today + 1))
    (hpast : tFires < now) :
    tFires < (nextUpdate o c now today).fires := by
  have h := fires_ge_now o c now today hsr hss
  omega

/-- Witness for C7 at `oracleA`: previous deadline `100`, recomputation
at `now = 1101`. -/
theorem c7_witness : (100 : Int) < (nextUpdate oracleA cfg0 1101 0).fires :=
  c7_forward_progress oracleA cfg0 1101 0 100 (by decide) (by decide) (by decide)

/-! ## C2 -/

/-- Claim C2: when both candidate events — today's and the re-queried
following day's sunrise and sunset — lie strictly in the past of `now`,
the planner inverts the target mode chosen by the initial
`sunrise < sunset` comparison and returns the following day's
occurrence of the alternate event, as freshly queried from the oracle:
if tomorrow's sunrise is earlier, the result is tomorrow's sunset with
`NoIR`; otherwise tomorrow's sunrise with `Colour`. -/
theorem c2_both_past_inverted (o : Oracle) (c : Config) (now today : Int)
    (h1 : todaySunrise o c today < now)
    (h2 : o.getSunrise c.latitude c.longitude (today + 1) < now)
    (h3 : todaySunset o c today < now)
    (h4 : o.getSunset c.latitude c.longitude (today + 1) < now) :
    nextUpdate o c now today =
      if o.getSunrise c.latitude c.longitude (today + 1) <
          o.getSunset c.latitude c.longitude (today + 1) then
        { fires := o.getSunset c.latitude c.longitude (today + 1),
          state := CameraMode.NoIR }
      else
        { fires := o.getSunrise c.latitude c.longitude (today + 1),
          state := CameraMode.Colour } := by
  have ha : rolledSunrise o c now today =
      o.getSunrise c.latitude c.longitude (today + 1) := by
    unfold rolledSunrise
    simp [h1]
  have hb : rolledSunset o c now today =
      o.getSunset c.latitude c.longitude (today + 1) := by
    unfold rolledSunset
    simp [h3]
  unfold nextUpdate sunriseNextCorrected sunriseNextInitial
  rw [ha, hb]
  by_cases hlt : o.getSunrise c.latitude c.longitude (today + 1) <
      o.getSunset c.latitude c.longitude (today + 1)
  · simp [hlt, h2]
  · simp [hlt, h4]

/-- Witness for C2 at `oracleB`, `now = 1000`: all four events are in
the past, and the result is tomorrow's sunset (`21`) with `NoIR`. -/
theorem c2_witness :
    nextUpdate oracleB cfg0 1000 0 = { fires := 21, state := CameraMode.NoIR } := by
  have h := c2_both_past_inverted oracleB cfg0 1000 0
    (by decide) (by decide) (by decide) (by decide)
  rw [h]
  decide

/-! ## C3 -/

/-- Claim C3 is false as stated: with `oracleA` (today's sunrise `100`,
tomorrow's `86400100`) and `now = 100`, today's sunrise lies at (hence
at-or-before) `now`, yet the candidate the planner compares is still
today's instant `100` — the following day's instant is not queried at
exact equality, and the planner returns `fires = 100`. -/
theorem c3_counterexample :
    todaySunrise oracleA cfg0 0 = 100 ∧
    rolledSunrise oracleA cfg0 100 0 = 100 ∧
    oracleA.getSunrise cfg0.latitude cfg0.longitude 1 = 86400100 ∧
    nextUpdate oracleA cfg0 100 0 = { fires := 100, state := CameraMode.Colour } := by
  decide

/-- Claim C3, amended: the planner re-queries an event for the
following calendar day exactly when the current day's instant lies
strictly before `now`; when `now` is at or before the instant —
including exact equality — the current day's instant is kept. -/
theorem c3_roll_forward_strict (o : Oracle) (c : Config) (now today : Int) :
    (todaySunrise o c today < now →
      rolledSunrise o c now today = o.getSunrise c.latitude c.longitude (today + 1)) ∧
    (now ≤ todaySunrise o c today →
      rolledSunrise o c now today = todaySunrise o c today) ∧
    (todaySunset o c today < now →
      rolledSunset o c now today = o.getSunset c.latitude c.longitude (today + 1)) ∧
    (now ≤ todaySunset o c today →
      rolledSunset o c now today = todaySunset o c today) := by
  refine ⟨fun h => ?_, fun h => ?_, fun h => ?_, fun h => ?_⟩ <;>
    first
    | (unfold rolledSunrise; split <;> omega)
    | (unfold rolledSunset; split <;> omega)

/-- Witness for C3's amended theorem: strictly-past sunrise is rolled
to the next day, and a sunset at-or-after `now` is kept. -/
theorem c3_witness :
    rolledSunrise oracleA cfg0 1000 0 = 86400100 ∧
    rolledSunset oracleA cfg0 150 0 = 200 :=
  ⟨(c3_roll_forward_strict oracleA cfg0 1000 0).1 (by decide),
   (c3_roll_forward_strict oracleA cfg0 150 0).2.2.2 (by decide)⟩

/-! ## C5 -/

/-- Claim C5: the correction pass after the roll-forward step.  If
sunrise was selected as next (`sunriseNextInitial`, i.e. the rolled
sunrise is before the rolled sunset) but `now` is already past the
computed sunrise, the selection flips to sunset being next; if sunset
was selected but `now` is already past the computed sunset, it flips to
sunrise being next; otherwise the selection is unchanged. -/
theorem c5_correction_pass (o : Oracle) (c : Config) (now today : Int) :
    (sunriseNextInitial o c now today = true ∧ rolledSunrise o c now today < now →
      sunriseNextCorrected o c now today = false) ∧
    (sunriseNextInitial o c now today = false ∧ rolledSunset o c now today < now →
      sunriseNextCorrected o c now today = true) ∧
    (¬ (sunriseNextInitial o c now today = true ∧ rolledSunrise o c now today < now) ∧
     ¬ (sunriseNextInitial o c now today = false ∧ rolledSunset o c now today < now) →
      sunriseNextCorrected o c now today = sunriseNextInitial o c now today) := by
  unfold sunriseNextCorrected
  refine ⟨fun h => ?_, fun h => ?_, fun h => ?_⟩ <;>
    split_ifs <;> first | rfl | simp_all

/-- Witness for C5 at `oracleB`, `now = 1000`: sunrise was initially
selected (rolled sunrise `11` < rolled sunset `21`) but `now` is past
it, so the selection flips to sunset. -/
theorem c5_witness : sunriseNextCorrected oracleB cfg0 1000 0 = false :=
  (c5_correction_pass oracleB cfg0 1000 0).1 ⟨by decide, by decide⟩

/-! ## C4 -/

/-- `setup` never arms a timer: its event list holds only `update`
applications. -/
theorem armed_not_mem_setup (o : Oracle) (c : Config) (now today : Int)
    (u : Update) : Event.armed u ∉ (setupEvents o c now today).1 := by
  unfold setupEvents
  split <;> simp

/-- Claim C4 is false as stated: a test-mode invocation with selector
`0` does not apply only the selected mode.  `main` runs `setup` before
checking `argv`, and `setup` applies the opposite of the planned next
state; with `oracleA` at `now = 100` the trace is two mode
applications (`NoIR` from startup, then the selected `Colour`), not
one. -/
theorem c4_counterexample :
    mainEvents oracleA cfg0 100 0 ["--test", "0"] =
      [Event.applied CameraMode.NoIR, Event.applied CameraMode.Colour] ∧
    mainEvents oracleA cfg0 100 0 ["--test", "0"] ≠
      [Event.applied CameraMode.Colour] := by
  decide

/-- Claim C4, amended: a test-mode invocation (selector `"0"` for
Colour, `"1"` for NoIR) applies the selected mode exactly once and
exits without arming any timer, but only after the normal startup
sequence has run: `setup`'s single initial mode application (the
opposite of the planned next state) precedes it, so the selected mode
is not the only mode applied during the run. -/
theorem c4_test_mode (o : Oracle) (c : Config) (now today : Int)
    (argv : List String) (s : String)
    (hc : argv.contains "--test" = true)
    (hm : argv[argv.indexOf "--test" + 1]? = some s) :
    (s = "0" → mainEvents o c now today argv =
      (setupEvents o c now today).1 ++ [Event.applied CameraMode.Colour]) ∧
    (s = "1" → mainEvents o c now today argv =
      (setupEvents o c now today).1 ++ [Event.applied CameraMode.NoIR]) ∧
    ∀ u : Update, Event.armed u ∉ mainEvents o c now today argv := by
  have hc2 : "--test" ∈ argv := by simpa using hc
  refine ⟨fun h0 => ?_, fun h1 => ?_, fun u => ?_⟩
  · subst h0
    simp [mainEvents, hc2, hm]
  · subst h1
    simp [mainEvents, hc2, hm]
  · have hset := armed_not_mem_setup o c now today u
    simp only [mainEvents, hc, if_true]
    split_ifs <;> simp_all

/-- Witness for C4's amended theorem: selector `"1"` at `oracleA`. -/
theorem c4_witness :
    mainEvents oracleA cfg0 100 0 ["--test", "1"] =
      (setupEvents oracleA cfg0 100 0).1 ++ [Event.applied CameraMode.NoIR] :=
  (c4_test_mode oracleA cfg0 100 0 ["--test", "1"] "1"
    (by decide) (by decide)).2.1 rfl

/-! ## C6 -/

/-- Claim C6: at startup (scheduler path, no `--test` flag), after
computing `next = nextUpdate`, the system applies the opposite of
`next.state` — `NoIR` when `next.state` is `Colour`, `Colour` when it
is `NoIR` — and only then arms the timer for `next`. -/
theorem c6_startup_applies_opposite (o : Oracle) (c : Config) (now today : Int) :
    mainEvents o c now today [] =
      [Event.applied (if (nextUpdate o c now today).state = CameraMode.Colour
        then CameraMode.NoIR else CameraMode.Colour),
       Event.armed (nextUpdate o c now today)] := by
  unfold mainEvents setupEvents
  split_ifs with h <;> simp_all

/-! ## C8 -/

/-- Claim C8: `loadConfig` never raises to its caller — in the
embedding it is a total function from the outcome of the external
read-and-parse pipeline — and on every failure (missing file,
unreadable file, JSON parse error) it returns the fixed default
location, latitude `51.5074` and longitude `0.1278`, instead of
propagating the error. -/
theorem c8_load_config_default (e : LoadError) :
    loadConfig (Except.error e) =
      Json.obj [("latitude", Json.num (515074 / 10000)),
                ("longitude", Json.num (1278 / 10000))] :=
  rfl

/-! ## C9 -/

/-- Claim C9: `nextUpdate` is a pure, deterministic function of
(location, now, astronomical oracle).  Its result depends on the oracle
only through the four queries the code makes — sunrise and sunset for
the current and the following day at the given location — so two calls
with the same location and `now` against oracles that agree on those
queries (in particular the same oracle) return identical
`Update` values. -/
theorem c9_deterministic (o₁ o₂ : Oracle) (c : Config) (now today : Int)
    (hsr0 : o₁.getSunrise c.latitude c.longitude today =
      o₂.getSunrise c.latitude c.longitude today)
    (hsr1 : o₁.getSunrise c.latitude c.longitude (today + 1) =
      o₂.getSunrise c.latitude c.longitude (today + 1))
    (hss0 : o₁.getSunset c.latitude c.longitude today =
      o₂.getSunset c.latitude c.longitude today)
    (hss1 : o₁.getSunset c.latitude c.longitude (today + 1) =
      o₂.getSunset c.latitude c.longitude (today + 1)) :
    nextUpdate o₁ c now today = nextUpdate o₂ c now today := by
  unfold nextUpdate sunriseNextCorrected sunriseNextInitial rolledSunrise
    rolledSunset todaySunrise todaySunset
  rw [hsr0, hsr1, hss0, hss1]

/-- Witness for C9: two calls at the same oracle, location and instant
agree. -/
theorem c9_witness : nextUpdate oracleA cfg0 100 0 = nextUpdate oracleA cfg0 100 0 :=
  c9_deterministic oracleA oracleA cfg0 100 0 rfl rfl rfl rfl

/-! ## C10 -/

/-- Claim C10: `loadConfig` performs no validation of successfully
parsed content — every value `JSON.parse` produces is returned to the
core unchanged, even when it is not an object or lacks numeric
latitude/longitude fields (e.g. a bare string) — and the fixed default
is substituted only when reading or parsing throws. -/
theorem c10_no_validation :
    (∀ j : Json, loadConfig (Except.ok j) = j) ∧
    loadConfig (Except.ok (Json.str "not a config")) = Json.str "not a config" ∧
    loadConfig (Except.ok Json.null) = Json.null ∧
    (∀ e : LoadError, loadConfig (Except.error e) = defaultConfigJson) :=
  ⟨fun _ => rfl, rfl, rfl, fun _ => rfl⟩

end PiCamera
